import Mathlib

/-!
Verification of the knowledge retrieval engine of this repository
(`app/knowledge/embedding.py` and `app/knowledge/simple_index.py`).

The Python code is shallowly embedded as executable Lean definitions:

* fragments and their metadata are records mirroring the dictionaries
  built by `EmbeddingManager.chunk_document`;
* the parallel fragment/vector arrays and the dual-pool search of
  `EmbeddingManager.search` operate on `ℚ`-valued vectors (FAISS
  `IndexFlatL2` returns squared Euclidean distances, modelled exactly
  over `ℚ`);
* fallible steps (`build_index`, `load_index`, the vectorizer call)
  return `Except`/`Option` values mirroring the exceptions the Python
  raises or catches.
-/

section Reducibility

attribute [local semireducible] Rat.add Rat.mul Rat.inv Rat.sub

namespace Embedding

/-! ## String primitives (Python `in` and `str.strip`) -/

/-- Does `hay` start with `needle` (on character lists)? -/
def startsList (needle hay : List Char) : Bool :=
  match needle, hay with
  | [], _ => true
  | _ :: _, [] => false
  | a :: as, b :: bs => a == b && startsList as bs

/-- Does `hay` contain `needle` as a contiguous run of characters?
Models Python's `needle in hay` on strings. -/
def hasSub (needle hay : List Char) : Bool :=
  match hay with
  | [] => needle.isEmpty
  | _ :: t => startsList needle hay || hasSub needle t

/-- Python `a in b` on strings. -/
def pyIn (a b : String) : Bool := hasSub a.data b.data

/-- ASCII whitespace, the fragment texts' relevant subset of the
characters removed by Python's `str.strip()`. -/
def isSpaceChar (c : Char) : Bool :=
  c == ' ' || c == '\t' || c == '\n' || c == '\r' || c == '\x0b' || c == '\x0c'

/-- Python `str.strip()`: remove leading and trailing whitespace. -/
def pyStrip (s : String) : String :=
  ⟨((s.data.dropWhile isSpaceChar).reverse.dropWhile isSpaceChar).reverse⟩

/-! ## Data model: fragments produced by `chunk_document` -/

/-- The `metadata` dictionary attached to each chunk.  Keys present only
on table chunks (`table_idx`, `row_idx`, `service_name`) are `Option`s;
`hmo_name`/`insurance_tier` are the two facets (`None` on introduction
and contact chunks). -/
structure Meta where
  service_type : String
  source_file : String
  chunk_type : String
  hmo_name : Option String
  insurance_tier : Option String
  table_idx : Option Nat
  row_idx : Option Nat
  service_name : Option String
deriving DecidableEq, Repr

/-- A chunk: retrievable text plus metadata. -/
structure Fragment where
  text : String
  metadata : Meta
deriving DecidableEq, Repr

/-! ## Data model: input documents -/

/-- One table of a source document: `{'headers': [...], 'data': [[...]]}`. -/
structure Table where
  headers : List String
  data : List (List String)
deriving DecidableEq, Repr

/-- The `contact_info` dictionary.  `phonesKey = none` models the
`'phones'` key being absent (`.get('phones', [])` then yields `[]`);
`extraKeys` counts the dictionary's other keys, so Python truthiness of
the dictionary is `phonesKey.isSome || extraKeys ≠ 0`. -/
structure ContactInfo where
  phonesKey : Option (List String)
  extraKeys : Nat
deriving DecidableEq, Repr

/-- A source document as consumed by `chunk_document`.
`contact_info = none` models the key being absent
(`document.get('contact_info', {})` then yields the falsy `{}`). -/
structure Document where
  service_type : String
  source_file : String
  title : String
  introduction : List String
  tables : List Table
  contact_info : Option ContactInfo
deriving DecidableEq, Repr

/-- Python truthiness of the `contact_info` dictionary: non-empty. -/
def contactTruthy : Option ContactInfo → Bool
  | none => false
  | some c => c.phonesKey.isSome || c.extraKeys != 0

/-! ## `EmbeddingManager.chunk_document` -/

/-- `intro_text`: title, then each introduction paragraph, each followed
by a newline (embedding.py lines 86-88). -/
def introText (d : Document) : String :=
  d.introduction.foldl (fun acc p => acc ++ p ++ "\n") (d.title ++ "\n")

/-- The fixed tier tokens scanned for in each table cell
(embedding.py line 117): Gold, Silver, Bronze in Hebrew. -/
def tierTokens : List String := ["זהב", "כסף", "ארד"]

/-- The static keyword suffix appended by service type
(embedding.py lines 125-136). -/
def keywordSuffix (st : String) : String :=
  if st == "pragrency_services" then
    "\nKeywords: pregnancy, prenatal, birth, maternity, pregnant"
  else if st == "dentel_services" then
    "\nKeywords: dental, teeth, tooth, dentist, oral"
  else if st == "optometry_services" then
    "\nKeywords: vision, eye, glasses, contact lenses, optometry"
  else if st == "communication_clinic_services" then
    "\nKeywords: speech, hearing, communication, language, therapy"
  else if st == "alternative_services" then
    "\nKeywords: alternative medicine, acupuncture, homeopathy, massage, natural"
  else if st == "workshops_services" then
    "\nKeywords: workshop, class, group, training, education"
  else ""

/-- The fragments produced from one table row (embedding.py lines
106-150): rows with at least two cells yield one fragment per column
index `i ∈ [1, min(len(row), len(headers)))`; the header is the HMO
facet, and the first tier token contained in the cell text is the tier
facet. -/
def rowChunks (d : Document) (tIdx : Nat) (headers : List String)
    (rIdx : Nat) (row : List String) : List Fragment :=
  if 2 ≤ row.length then
    (List.range' 1 (min row.length headers.length - 1)).map (fun i =>
      let service_name := row.getD 0 ""
      let hmo_name := headers.getD i ""
      let hmo_data := row.getD i ""
      { text := "Service: " ++ service_name ++ "\nHMO: " ++ hmo_name ++
          "\nDétails: " ++ hmo_data ++ keywordSuffix d.service_type,
        metadata := {
          service_type := d.service_type,
          source_file := d.source_file,
          chunk_type := "table",
          hmo_name := some hmo_name,
          insurance_tier := tierTokens.find? (fun t => pyIn t hmo_data),
          table_idx := some tIdx,
          row_idx := some rIdx,
          service_name := some service_name } })
  else []

/-- The 0-or-1 introduction fragments (embedding.py lines 85-100). -/
def introChunks (d : Document) : List Fragment :=
  if pyStrip (introText d) != "" then
    [{ text := introText d,
       metadata := {
         service_type := d.service_type, source_file := d.source_file,
         chunk_type := "introduction", hmo_name := none,
         insurance_tier := none, table_idx := none, row_idx := none,
         service_name := none } }]
  else []

/-- All table fragments in document order (embedding.py lines 102-150). -/
def tableChunks (d : Document) : List Fragment :=
  d.tables.enum.flatMap (fun tp =>
    tp.2.data.enum.flatMap (fun rp => rowChunks d tp.1 tp.2.headers rp.1 rp.2))

/-- The contact-information text: a fixed header line followed by each
phone entry and a newline (embedding.py lines 155-157). -/
def contactText (c : ContactInfo) : String :=
  (c.phonesKey.getD []).foldl (fun acc p => acc ++ p ++ "\n")
    "Informations de contact:\n"

/-- The 0-or-1 contact fragments (embedding.py lines 152-168): emitted
whenever the `contact_info` dictionary is truthy (non-empty), regardless
of whether any phone list is present. -/
def contactChunks (d : Document) : List Fragment :=
  match d.contact_info with
  | none => []
  | some c =>
    if c.phonesKey.isSome || c.extraKeys != 0 then
      [{ text := contactText c,
         metadata := {
           service_type := d.service_type, source_file := d.source_file,
           chunk_type := "contact", hmo_name := none,
           insurance_tier := none, table_idx := none, row_idx := none,
           service_name := none } }]
    else []

/-- `EmbeddingManager.chunk_document` (embedding.py lines 81-170). -/
def chunk_document (d : Document) : List Fragment :=
  introChunks d ++ tableChunks d ++ contactChunks d

/-! ## `EmbeddingManager.create_embedding`

The vectorizer collaborator is an opaque fallible function; the Python
wraps it in `try`/`except` blocks that catch every failure (new API,
old API, unknown response structure) and fall back to a zero vector of
the ADA-002 dimension 1536 (embedding.py lines 39-79). -/

/-- Outcome of one collaborator call: a vector, or any raised error. -/
abbrev VectorizerResult := Except Unit (List ℚ)

/-- `EmbeddingManager.create_embedding`: on collaborator success return
its vector; on any collaborator error return `[0.0] * 1536`
(embedding.py lines 57, 72, 75, 79). -/
def create_embedding (r : VectorizerResult) : List ℚ :=
  match r with
  | .ok v => v
  | .error _ => List.replicate 1536 0

/-! ## In-memory state and the dual-pool search -/

/-- Which similarity structure `self.index` holds. -/
inductive IndexKind where
  | faiss
  | simple
deriving DecidableEq, Repr

/-- The manager's loaded state: `self.documents`, the parallel
`self.embeddings` rows, the kind of `self.index`, and the module-level
`FAISS_AVAILABLE` flag (embedding.py lines 9-17, 30-32). -/
structure SearchState where
  docs : List Fragment
  embs : List (List ℚ)
  indexKind : IndexKind
  faissAvailable : Bool
deriving DecidableEq, Repr

/-- Squared Euclidean distance, the metric of FAISS `IndexFlatL2` and of
`SimpleIndex.search` (simple_index.py line 48). -/
def sqDist (q v : List ℚ) : ℚ :=
  (List.zipWith (fun a b => (a - b) ^ 2) q v).sum

/-- `score = 1 / (1 + distance)` (embedding.py lines 428, 452). -/
def score (d : ℚ) : ℚ := 1 / (1 + d)

/-- One ranked search result: a fragment copy plus its score. -/
structure SearchResult where
  frag : Fragment
  score : ℚ
deriving DecidableEq, Repr

/-- The facet comparison of `search` (embedding.py lines 342, 346):
strip both strings and test substring containment in either direction.
No case folding is performed by the source. -/
def fuzzy (filt facet : String) : Bool :=
  pyIn (pyStrip filt) (pyStrip facet) || pyIn (pyStrip facet) (pyStrip filt)

/-- One facet's match flag (`hmo_match` / `tier_match`): the stored
facet and the filter argument must both be truthy (present, non-empty)
strings, and then `fuzzy` decides (embedding.py lines 337-346). -/
def facetMatch (facet filt : Option String) : Bool :=
  match facet, filt with
  | some h, some f => if h != "" && f != "" then fuzzy f h else false
  | _, _ => false

/-- Membership test of the exact specific pool: both facets match
(embedding.py line 348). -/
def andMatch (m : Meta) (fh ft : Option String) : Bool :=
  facetMatch m.hmo_name fh && facetMatch m.insurance_tier ft

/-- Membership test of the widened specific pool: either facet matches
(embedding.py line 385). -/
def orMatch (m : Meta) (fh ft : Option String) : Bool :=
  facetMatch m.hmo_name fh || facetMatch m.insurance_tier ft

/-- Membership test of the general pool: both facets are `None`
(embedding.py lines 360-361). -/
def generalMatch (m : Meta) : Bool :=
  m.hmo_name == none && m.insurance_tier == none

/-- Positions (with their fragments) whose metadata matches both
filters: `specific_indices` before widening (embedding.py lines 329-349). -/
def andPool (st : SearchState) (fh ft : Option String) : List (Nat × Fragment) :=
  st.docs.enum.filter (fun p => andMatch p.2.metadata fh ft)

/-- Positions matching at least one filter: the widened
`specific_indices` (embedding.py lines 369-386). -/
def orPool (st : SearchState) (fh ft : Option String) : List (Nat × Fragment) :=
  st.docs.enum.filter (fun p => orMatch p.2.metadata fh ft)

/-- `general_indices` (embedding.py lines 356-362). -/
def generalPool (st : SearchState) : List (Nat × Fragment) :=
  st.docs.enum.filter (fun p => generalMatch p.2.metadata)

/-- The specific pool actually searched: the exact (AND) pool, widened
to the OR pool whenever the exact pool is empty (embedding.py lines
364-390; the widening is attempted whenever `specific_indices` is
empty, and adds nothing when both filters are `None`). -/
def specificPool (st : SearchState) (fh ft : Option String) : List (Nat × Fragment) :=
  if (andPool st fh ft).isEmpty then orPool st fh ft else andPool st fh ft

/-- The embedding row at position `i` (`self.embeddings[i]`); only
evaluated by `search` at in-range positions. -/
def vecAt (st : SearchState) (i : Nat) : List ℚ := st.embs.getD i []

/-- Strict ordering on (distance, position) keys: nearer first, ties by
original position, modelling the deterministic exact-search order of a
freshly built flat sub-index. -/
def nearer (q : List ℚ) (st : SearchState) (a b : Nat × Fragment) : Bool :=
  sqDist q (vecAt st a.1) < sqDist q (vecAt st b.1) ||
    (sqDist q (vecAt st a.1) == sqDist q (vecAt st b.1) && a.1 < b.1)

/-- Stable insertion into a list sorted by `le`: the new element goes
before the first already-placed element `y` with `le x y`. -/
def insertSorted (le : α → α → Bool) (x : α) : List α → List α
  | [] => [x]
  | y :: ys => if le x y then x :: y :: ys else y :: insertSorted le x ys

/-- Stable insertion sort by `le` (elements inserted back to front, so
earlier list elements win ties — the behaviour of Python's stable
`list.sort`). -/
def sortBy (le : α → α → Bool) (l : List α) : List α :=
  l.foldr (insertSorted le) []

/-- Sort pool positions by ascending distance to the query. -/
def sortByDist (q : List ℚ) (st : SearchState) (l : List (Nat × Fragment)) :
    List (Nat × Fragment) :=
  sortBy (nearer q st) l

/-- k-nearest-neighbour query of a temporary flat sub-index over a pool
(embedding.py lines 415-419, 439-443): the `k` pool positions nearest to
the query, ascending by distance. -/
def knn (q : List ℚ) (st : SearchState) (pool : List (Nat × Fragment))
    (k : Nat) : List (Nat × Fragment) :=
  (sortByDist q st pool).take k

/-- `results_A`: the specific-pool candidates, present only when the
pool is non-empty and FAISS is available (embedding.py lines 407-429);
the per-pool candidate cap is `specific_top_k = min(30, pool size)`
(line 400). -/
def resultsA (st : SearchState) (q : List ℚ) (fh ft : Option String) :
    List SearchResult :=
  let sp := specificPool st fh ft
  if !sp.isEmpty && st.faissAvailable then
    (knn q st sp (min 30 sp.length)).map
      (fun p => ⟨p.2, score (sqDist q (vecAt st p.1))⟩)
  else []

/-- `results_B`: the general-pool candidates, with cap
`general_top_k = min(10, pool size)` (embedding.py lines 401, 431-453). -/
def resultsB (st : SearchState) (q : List ℚ) : List SearchResult :=
  let gp := generalPool st
  if !gp.isEmpty && st.faissAvailable then
    (knn q st gp (min 10 gp.length)).map
      (fun p => ⟨p.2, score (sqDist q (vecAt st p.1))⟩)
  else []

/-- The merge ordering: descending score, stable, exactly Python's
`merged_results.sort(key=lambda x: x['score'], reverse=True)`
(embedding.py line 459). -/
def scoreGE (a b : SearchResult) : Bool := decide (b.score ≤ a.score)

/-- Stable sort by descending score. -/
def sortDesc (l : List SearchResult) : List SearchResult :=
  sortBy scoreGE l

/-- `self.embeddings.shape[1]`: the column count of the rectangular
vector array — the dimension of every temporary flat sub-index built by
`search` (embedding.py lines 415, 439). -/
def embDim (st : SearchState) : Nat := (st.embs.headD []).length

/-- `EmbeddingManager.search` on a loaded state and an already-embedded
query (embedding.py lines 289-473): compute both pools, widen the
specific pool if empty, run a capped nearest-neighbour query per pool
under the `FAISS_AVAILABLE` guard, merge, sort by descending score and
truncate to `top_k`.  The surrounding `try`/`except` returns `[]`
whenever an executed sub-search raises (lines 470-473): either the
fancy indexing `self.embeddings[indices]` fails because a used pool
position is outside the vector array, or the FAISS `search` call
asserts that the query's dimension equals the sub-index dimension
`self.embeddings.shape[1]` and the assertion fails.  A sub-search
executes only when its pool is non-empty and FAISS is available. -/
def search (st : SearchState) (q : List ℚ) (top_k : Nat)
    (fh ft : Option String) : List SearchResult :=
  let sp := specificPool st fh ft
  let gp := generalPool st
  if st.faissAvailable &&
      ((!sp.isEmpty &&
         ((sp.any fun p => st.embs.length ≤ p.1) || q.length != embDim st)) ||
       (!gp.isEmpty &&
         ((gp.any fun p => st.embs.length ≤ p.1) || q.length != embDim st))) then
    []
  else
    (sortDesc (resultsA st q fh ft ++ resultsB st q)).take top_k

/-- `search` including the query-embedding step (embedding.py lines
304-306): the query is embedded by `create_embedding`, which never
raises, and the result feeds the vector search. -/
def searchWithVectorizer (st : SearchState) (vr : VectorizerResult)
    (top_k : Nat) (fh ft : Option String) : List SearchResult :=
  search st (create_embedding vr) top_k fh ft

/-! ## `build_index` / `load_index` and the on-disk artifacts -/

/-- The fourth artifact (`embedding_metadata.json`): corpus statistics.
The diagnostic per-embedding preview list and the distinct-value lists
are built from the same fields and omitted here; `created_at` is the
`time.strftime` result (embedding.py lines 224-243). -/
structure IndexMetadata where
  total_embeddings : Nat
  dimension : Nat
  created_at : String
deriving DecidableEq, Repr

/-- The four on-disk artifacts; `none` means the file is absent
(embedding.py lines 26-29): `knowledge_index.json`,
`knowledge_embeddings.npy`, `knowledge_faiss.index`,
`embedding_metadata.json`.  The FAISS artifact serializes the indexed
vectors. -/
structure DiskState where
  indexFile : Option (List Fragment)
  embeddingFile : Option (List (List ℚ))
  faissFile : Option (List (List ℚ))
  metadataFile : Option IndexMetadata
deriving DecidableEq, Repr

/-- No artifact on disk. -/
def emptyDisk : DiskState := ⟨none, none, none, none⟩

/-- How `build_index` can fail. -/
inductive BuildError where
  /-- `np.array(embeddings_list).astype('float32')` raises when the
  embedding vectors have unequal lengths (embedding.py line 189). -/
  | raggedVectors
  /-- `embeddings_array.shape[1]` raises when there are no chunks at all
  (embedding.py line 192). -/
  | emptyCorpus
  /-- `time.strftime` raises `NameError`: `import time` appears only
  inside the `if __name__ == "__main__"` block (line 477), so the name
  is undefined at line 230 whenever the module is imported rather than
  run as a script. -/
  | nameErrorTime
deriving DecidableEq, Repr

/-- Do all vectors share one length? -/
def allSameLength (vs : List (List ℚ)) : Bool :=
  vs.all (fun v => v.length == (vs.headD []).length)

/-- `all_chunks`: every input document segmented, in order
(embedding.py lines 175-180). -/
def buildChunks (docsIn : List Document) : List Fragment :=
  docsIn.flatMap chunk_document

/-- `embeddings_list`: one vectorizer call per chunk, zero-vector
fallback included (embedding.py lines 182-186). -/
def buildVecs (embedFn : String → VectorizerResult) (docsIn : List Document) :
    List (List ℚ) :=
  (buildChunks docsIn).map (fun c => create_embedding (embedFn c.text))

/-- `EmbeddingManager.build_index` (embedding.py lines 172-250).
`timeInScope` records whether the module-global name `time` resolves
(true only when the module runs as a script); `now` is the wall-clock
`time.strftime` string; `embedFn` is the vectorizer collaborator.
Returns the artifacts written and either the final in-memory state or
the error raised.  Write order: fragment list (line 214), vector array
(line 217), FAISS index when available (lines 220-221), then the
metadata — whose construction at line 230 is the `NameError` point —
and only then the metadata file (line 245).  The two early failures
(ragged vectors at line 189, empty corpus at line 192) precede every
write. -/
def build_index (timeInScope : Bool) (faissAvailable : Bool) (now : String)
    (embedFn : String → VectorizerResult) (docsIn : List Document) :
    DiskState × Except BuildError SearchState :=
  if !allSameLength (buildVecs embedFn docsIn) then
    (emptyDisk, .error .raggedVectors)
  else if (buildVecs embedFn docsIn).isEmpty then
    (emptyDisk, .error .emptyCorpus)
  else if timeInScope then
    (⟨some (buildChunks docsIn), some (buildVecs embedFn docsIn),
      if faissAvailable then some (buildVecs embedFn docsIn) else none,
      some ⟨(buildChunks docsIn).length,
        ((buildVecs embedFn docsIn).headD []).length, now⟩⟩,
     .ok ⟨buildChunks docsIn, buildVecs embedFn docsIn,
       if faissAvailable then .faiss else .simple, faissAvailable⟩)
  else
    (⟨some (buildChunks docsIn), some (buildVecs embedFn docsIn),
      if faissAvailable then some (buildVecs embedFn docsIn) else none, none⟩,
     .error .nameErrorTime)

/-- `EmbeddingManager.load_index` (embedding.py lines 252-287): `none`
models returning `False`.  Only the fragment-list and FAISS files are
existence-checked up front (line 254); a missing vector or metadata file
raises inside the `try` and is caught, returning `False` (lines
282-284).  No structural-consistency check is performed: the loaded
fragment and vector counts are never compared.  When FAISS is
unavailable the index is rebuilt as a `SimpleIndex` from the loaded
vectors (lines 273-277). -/
def load_index (faissAvailable : Bool) (d : DiskState) : Option SearchState :=
  if d.indexFile.isSome && d.faissFile.isSome then
    match d.indexFile, d.embeddingFile, d.metadataFile with
    | some docs, some embs, some _ =>
      some ⟨docs, embs, if faissAvailable then .faiss else .simple,
        faissAvailable⟩
    | _, _, _ => none
  else none

/-! ## Fragment-count bookkeeping for the segmenter -/

/-- Number of introduction fragments `chunk_document` emits. -/
def introCount (d : Document) : Nat :=
  if pyStrip (introText d) != "" then 1 else 0

/-- Number of valid table cells: for each table, for each row with at
least two cells, one per column index in `[1, min(len(row), len(headers)))`. -/
def cellCount (d : Document) : Nat :=
  (d.tables.map (fun t =>
    (t.data.map (fun row =>
      if 2 ≤ row.length then min row.length t.headers.length - 1 else 0)).sum)).sum

/-- Number of contact fragments `chunk_document` emits: one iff the
`contact_info` dictionary is truthy. -/
def contactCount (d : Document) : Nat :=
  if contactTruthy d.contact_info then 1 else 0

/-- The contact-fragment count as the claim words it (a contact fragment
"from non-empty contact phone lists", present iff the phone lists are
non-empty) — stated from the spec for comparison against the code's
behaviour. -/
def claimedContactCount (d : Document) : Nat :=
  match d.contact_info with
  | none => 0
  | some c => if (c.phonesKey.getD []).isEmpty then 0 else 1

/-- Is a build outcome a success? -/
def buildOk : Except BuildError SearchState → Bool
  | .ok _ => true
  | .error _ => false

instance {ε α : Type _} [DecidableEq ε] [DecidableEq α] :
    DecidableEq (Except ε α) := fun x y =>
  match x, y with
  | .ok a, .ok b =>
    if h : a = b then .isTrue (by rw [h])
    else .isFalse (fun hc => h (Except.ok.inj hc))
  | .error a, .error b =>
    if h : a = b then .isTrue (by rw [h])
    else .isFalse (fun hc => h (Except.error.inj hc))
  | .ok _, .error _ => .isFalse (fun hc => Except.noConfusion hc)
  | .error _, .ok _ => .isFalse (fun hc => Except.noConfusion hc)

/-! ## Concrete instances used by the witnesses and counterexamples -/

/-- A facet-agnostic (general-pool) fragment. -/
def introMeta : Meta := ⟨"svc", "kb.json", "introduction", none, none, none, none, none⟩

/-- A facet-agnostic (general-pool) fragment. -/
def introFrag : Fragment := ⟨"Intro text", introMeta⟩

/-- A table fragment with facets Acme/Gold. -/
def acmeGoldMeta : Meta :=
  ⟨"svc", "kb.json", "table", some "Acme", some "Gold", some 0, some 0, some "Checkup"⟩

/-- A table fragment with facets Acme/Gold. -/
def acmeGoldFrag : Fragment := ⟨"Service: Checkup\nHMO: Acme\nDétails: Gold tier", acmeGoldMeta⟩

/-- A table fragment with facets Acme/Silver. -/
def acmeSilverMeta : Meta :=
  ⟨"svc", "kb.json", "table", some "Acme", some "Silver", some 0, some 1, some "Checkup"⟩

/-- A table fragment with facets Acme/Silver. -/
def acmeSilverFrag : Fragment :=
  ⟨"Service: Checkup\nHMO: Acme\nDétails: Silver tier", acmeSilverMeta⟩

/-- State in which the general fragment is nearer the query `[0]` than
the Acme/Gold fragment. -/
def stC1 : SearchState := ⟨[introFrag, acmeGoldFrag], [[0], [10]], .faiss, true⟩

/-- State in which the Acme/Gold fragment is nearer the query `[0]`
than the general fragment. -/
def stC1w : SearchState := ⟨[introFrag, acmeGoldFrag], [[10], [0]], .faiss, true⟩

/-- State with an Acme/Silver fragment and a general fragment, no
Acme/Gold fragment: the fallback-widening scenario. -/
def stC2 : SearchState := ⟨[acmeSilverFrag, introFrag], [[0], [5]], .faiss, true⟩

/-- A one-fragment general-pool state storing a single
1536-dimensional vector `(3, 0, …, 0)` — the dimension of the
zero-vector fallback query, so the FAISS dimension assertion passes. -/
def stC3 : SearchState :=
  ⟨[introFrag], [3 :: List.replicate 1535 0], .faiss, true⟩

/-- A document yielding exactly one introduction fragment. -/
def c4Doc : Document := ⟨"svc", "kb.json", "Doc", ["hello"], [], none⟩

/-- The introduction fragment of `c4Doc`. -/
def c4Frag : Fragment :=
  ⟨"Doc\nhello\n", ⟨"svc", "kb.json", "introduction", none, none, none, none, none⟩⟩

/-- A vectorizer that always succeeds with the fixed vector `v`. -/
def embedConst (v : List ℚ) : String → VectorizerResult := fun _ => .ok v

/-- A vectorizer that always errors. -/
def embedFail : String → VectorizerResult := fun _ => .error ()

/-- Metadata artifact announcing two embeddings of dimension 1. -/
def metaC5 : IndexMetadata := ⟨2, 1, "2025-01-01 00:00:00"⟩

/-- A structurally inconsistent disk state: two fragments but a single
vector row. -/
def diskC5 : DiskState :=
  ⟨some [introFrag, acmeGoldFrag], some [[1]], some [[1]], some metaC5⟩

/-- A document yielding exactly one contact fragment. -/
def c6Doc : Document := ⟨"svc", "kb.json", "", [], [], some ⟨some ["03-555"], 0⟩⟩

/-- The contact fragment of `c6Doc`. -/
def c6Frag : Fragment :=
  ⟨"Informations de contact:\n03-555\n",
   ⟨"svc", "kb.json", "contact", none, none, none, none, none⟩⟩

/-- A document yielding one introduction and one contact fragment. -/
def ragDoc : Document := ⟨"svc", "kb.json", "Doc", ["hello"], [], some ⟨some ["03-555"], 0⟩⟩

/-- A vectorizer returning vectors of unequal lengths for `ragDoc`'s
two fragments. -/
def embedRag : String → VectorizerResult :=
  fun t => if t == "Doc\nhello\n" then .ok [1] else .ok [1, 2]

/-- A document whose `contact_info` dictionary is truthy (it has a
`phones` key) while every phone list is absent: `{'phones': []}`. -/
def c8Doc : Document := ⟨"svc", "kb.json", "", [], [], some ⟨some [], 0⟩⟩

/-- A one-fragment state whose only fragment sits at distance 0 from
the query `[0]`. -/
def stC9 : SearchState := ⟨[introFrag], [[0]], .faiss, true⟩

/-! ## Helper lemmas: the stable insertion sort -/

theorem mem_insertSorted {α : Type _} (le : α → α → Bool) (x a : α) :
    ∀ l, a ∈ insertSorted le x l ↔ a = x ∨ a ∈ l
  | [] => by simp [insertSorted]
  | y :: ys => by
    simp only [insertSorted]
    split
    · simp [List.mem_cons]
    · simp only [List.mem_cons, mem_insertSorted le x a ys]
      tauto

theorem mem_sortBy {α : Type _} (le : α → α → Bool) (a : α) :
    ∀ l, a ∈ sortBy le l ↔ a ∈ l
  | [] => by simp [sortBy]
  | y :: ys => by
    have ih := mem_sortBy le a ys
    simp only [sortBy, List.foldr_cons] at ih ⊢
    rw [mem_insertSorted]
    simp [ih, List.mem_cons]

theorem pairwise_insertSorted {α : Type _} (le : α → α → Bool)
    (htot : ∀ a b, le a b = false → le b a = true)
    (htrans : ∀ a b c, le a b = true → le b c = true → le a c = true)
    (x : α) : ∀ l, l.Pairwise (fun a b => le a b = true) →
      (insertSorted le x l).Pairwise (fun a b => le a b = true)
  | [], _ => by simp [insertSorted]
  | y :: ys, h => by
    rw [List.pairwise_cons] at h
    obtain ⟨hy, hys⟩ := h
    simp only [insertSorted]
    split
    · rename_i hxy
      refine List.pairwise_cons.mpr ⟨?_, List.pairwise_cons.mpr ⟨hy, hys⟩⟩
      intro z hz
      rcases List.mem_cons.mp hz with rfl | hz'
      · exact hxy
      · exact htrans x y z hxy (hy z hz')
    · rename_i hxy
      have hxy' : le x y = false := by revert hxy; cases le x y <;> simp
      refine List.pairwise_cons.mpr
        ⟨?_, pairwise_insertSorted le htot htrans x ys hys⟩
      intro z hz
      rcases (mem_insertSorted le x z ys).mp hz with rfl | hz'
      · exact htot _ _ hxy'
      · exact hy z hz'

theorem pairwise_sortBy {α : Type _} (le : α → α → Bool)
    (htot : ∀ a b, le a b = false → le b a = true)
    (htrans : ∀ a b c, le a b = true → le b c = true → le a c = true) :
    ∀ l, (sortBy le l).Pairwise (fun a b => le a b = true)
  | [] => by simp [sortBy]
  | y :: ys => by
    have ih := pairwise_sortBy le htot htrans ys
    simpa [sortBy] using pairwise_insertSorted le htot htrans y _ ih

theorem scoreGE_total (a b : SearchResult) (h : scoreGE a b = false) :
    scoreGE b a = true := by
  simp only [scoreGE, decide_eq_false_iff_not, decide_eq_true_eq, not_le] at h ⊢
  linarith

theorem scoreGE_trans (a b c : SearchResult) (hab : scoreGE a b = true)
    (hbc : scoreGE b c = true) : scoreGE a c = true := by
  simp only [scoreGE, decide_eq_true_eq] at hab hbc ⊢
  linarith

/-! ## Helper lemmas: pools, positions, candidate provenance -/

theorem pos_lt_of_mem_enum {α : Type _} {l : List α} {p : Nat × α}
    (hp : p ∈ l.enum) : p.1 < l.length := by
  have h := List.mem_enum_iff_getElem?.mp hp
  obtain ⟨h1, -⟩ := List.getElem?_eq_some.mp h
  exact h1

theorem specificPool_subset_enum {st : SearchState} {fh ft : Option String}
    {p : Nat × Fragment} (hp : p ∈ specificPool st fh ft) : p ∈ st.docs.enum := by
  unfold specificPool at hp
  split at hp <;> exact (List.mem_filter.mp hp).1

theorem generalPool_subset_enum {st : SearchState} {p : Nat × Fragment}
    (hp : p ∈ generalPool st) : p ∈ st.docs.enum :=
  (List.mem_filter.mp hp).1

theorem mem_resultsA {st : SearchState} {q : List ℚ} {fh ft : Option String}
    {r : SearchResult} (hr : r ∈ resultsA st q fh ft) :
    ∃ i, st.docs[i]? = some r.frag ∧ r.score = score (sqDist q (vecAt st i)) := by
  simp only [resultsA] at hr
  split at hr
  · obtain ⟨p, hp, rfl⟩ := List.mem_map.mp hr
    have hpool : p ∈ specificPool st fh ft := by
      have h1 : p ∈ sortByDist q st (specificPool st fh ft) :=
        (List.take_sublist _ _).mem (by simpa [knn] using hp)
      exact (mem_sortBy _ _ _).mp (by simpa [sortByDist] using h1)
    exact ⟨p.1, List.mem_enum_iff_getElem?.mp (specificPool_subset_enum hpool), rfl⟩
  · simp at hr

theorem mem_resultsB {st : SearchState} {q : List ℚ} {r : SearchResult}
    (hr : r ∈ resultsB st q) :
    ∃ i, st.docs[i]? = some r.frag ∧ r.score = score (sqDist q (vecAt st i)) := by
  simp only [resultsB] at hr
  split at hr
  · obtain ⟨p, hp, rfl⟩ := List.mem_map.mp hr
    have hpool : p ∈ generalPool st := by
      have h1 : p ∈ sortByDist q st (generalPool st) :=
        (List.take_sublist _ _).mem (by simpa [knn] using hp)
      exact (mem_sortBy _ _ _).mp (by simpa [sortByDist] using h1)
    exact ⟨p.1, List.mem_enum_iff_getElem?.mp (generalPool_subset_enum hpool), rfl⟩
  · simp at hr

theorem search_eq_of_len {st : SearchState} (q : List ℚ) (k : Nat)
    (fh ft : Option String) (hlen : st.docs.length ≤ st.embs.length)
    (hq : q.length = embDim st) :
    search st q k fh ft = (sortDesc (resultsA st q fh ft ++ resultsB st q)).take k := by
  have h1 : (specificPool st fh ft).any (fun p => st.embs.length ≤ p.1) = false := by
    rw [List.any_eq_false]
    intro p hp
    have := pos_lt_of_mem_enum (specificPool_subset_enum hp)
    simp only [decide_eq_true_eq]
    omega
  have h2 : (generalPool st).any (fun p => st.embs.length ≤ p.1) = false := by
    rw [List.any_eq_false]
    intro p hp
    have := pos_lt_of_mem_enum (generalPool_subset_enum hp)
    simp only [decide_eq_true_eq]
    omega
  have h3 : (q.length != embDim st) = false := by
    simp [hq]
  simp [search, h1, h2, h3]

/-! ## Helper lemmas: distances and scores -/

theorem sqDist_nonneg : ∀ q v : List ℚ, 0 ≤ sqDist q v
  | [], _ => by simp [sqDist]
  | _ :: _, [] => by simp [sqDist]
  | a :: as, b :: bs => by
    have ih := sqDist_nonneg as bs
    have hsq : (0 : ℚ) ≤ (a - b) ^ 2 := sq_nonneg _
    simp only [sqDist, List.zipWith_cons_cons, List.sum_cons] at ih ⊢
    linarith

theorem score_pos {d : ℚ} (hd : 0 ≤ d) : 0 < score d :=
  one_div_pos.mpr (by linarith)

theorem score_le_one {d : ℚ} (hd : 0 ≤ d) : score d ≤ 1 := by
  have h1 : (0 : ℚ) < 1 + d := by linarith
  rw [score, div_le_one h1]
  linarith

theorem score_anti {d1 d2 : ℚ} (h0 : 0 ≤ d1) (h : d1 ≤ d2) :
    score d2 ≤ score d1 :=
  one_div_le_one_div_of_le (by linarith) (by linarith)

theorem score_strict_anti {d1 d2 : ℚ} (h0 : 0 ≤ d1) (h : d1 < d2) :
    score d2 < score d1 :=
  one_div_lt_one_div_of_lt (by linarith) (by linarith)

theorem mem_search_elim {st : SearchState} {q : List ℚ} {k : Nat}
    {fh ft : Option String} {r : SearchResult} (hr : r ∈ search st q k fh ft) :
    r ∈ resultsA st q fh ft ∨ r ∈ resultsB st q := by
  simp only [search] at hr
  split at hr
  · simp at hr
  · have h1 := (List.take_sublist _ _).mem hr
    have h2 := (mem_sortBy scoreGE r _).mp (by simpa [sortDesc] using h1)
    exact List.mem_append.mp h2

/-! ## Claim theorems -/

/-- Claim C9 (confirmed): every result returned by `search` has
`score = 1 / (1 + d)` where `d` is the squared Euclidean distance
between the query vector and the vector stored at the result fragment's
position; such scores always lie in `(0, 1]`, and the score is
monotonically (indeed strictly) decreasing in the distance. -/
theorem score_definition_and_range :
    (∀ (st : SearchState) (q : List ℚ) (k : Nat) (fh ft : Option String)
        (r : SearchResult), r ∈ search st q k fh ft →
      (0 < r.score ∧ r.score ≤ 1) ∧
      ∃ i, st.docs[i]? = some r.frag ∧ r.score = score (sqDist q (vecAt st i))) ∧
    (∀ d1 d2 : ℚ, 0 ≤ d1 → d1 ≤ d2 → score d2 ≤ score d1) ∧
    (∀ d1 d2 : ℚ, 0 ≤ d1 → d1 < d2 → score d2 < score d1) := by
  refine ⟨?_, fun d1 d2 h0 h => score_anti h0 h,
    fun d1 d2 h0 h => score_strict_anti h0 h⟩
  intro st q k fh ft r hr
  obtain ⟨i, hdoc, hscore⟩ := (mem_search_elim hr).elim mem_resultsA mem_resultsB
  refine ⟨⟨?_, ?_⟩, ⟨i, hdoc, hscore⟩⟩
  · rw [hscore]; exact score_pos (sqDist_nonneg q _)
  · rw [hscore]; exact score_le_one (sqDist_nonneg q _)

/-- Witness for C9: the single result of a concrete search has a score
in `(0, 1]`, obtained by instantiating the claim theorem there. -/
theorem score_definition_and_range_witness :
    0 < (⟨introFrag, (1 : ℚ)⟩ : SearchResult).score ∧
      (⟨introFrag, (1 : ℚ)⟩ : SearchResult).score ≤ 1 :=
  (score_definition_and_range.1 stC9 [0] 5 none none ⟨introFrag, 1⟩ (by decide)).1

/-- Claim C10 (confirmed): when FAISS is unavailable both pool
sub-searches are skipped (they run only under the `FAISS_AVAILABLE`
guard, with no `SimpleIndex` branch), so `search` returns the empty
list for every query, filters and index contents — even though
`build_index` and `load_index` construct a `SimpleIndex` in that
configuration. -/
theorem faiss_unavailable_empty_search :
    (∀ (docs : List Fragment) (embs : List (List ℚ)) (ik : IndexKind)
        (q : List ℚ) (k : Nat) (fh ft : Option String),
      search ⟨docs, embs, ik, false⟩ q k fh ft = []) ∧
    (∀ (tis : Bool) (now : String) (f : String → VectorizerResult)
        (ds : List Document) (st : SearchState),
      (build_index tis false now f ds).2 = .ok st →
      st.indexKind = .simple ∧ st.faissAvailable = false) ∧
    (∀ (d : DiskState) (st : SearchState),
      load_index false d = some st →
      st.indexKind = .simple ∧ st.faissAvailable = false) := by
  refine ⟨?_, ?_, ?_⟩
  · intro docs embs ik q k fh ft
    simp [search, resultsA, resultsB, sortDesc, sortBy]
  · intro tis now f ds st h
    unfold build_index at h
    split at h
    · exact Except.noConfusion h
    · split at h
      · exact Except.noConfusion h
      · split at h
        · have h' := Except.ok.inj h
          subst h'
          exact ⟨by simp, rfl⟩
        · exact Except.noConfusion h
  · intro d st h
    unfold load_index at h
    split at h
    · split at h
      all_goals
        first
        | exact Option.noConfusion h
        | (have h' := Option.some.inj h; subst h'; exact ⟨by simp, rfl⟩)
    · exact Option.noConfusion h

/-- Witness for C10: a concrete FAISS-unavailable search is empty, and
a concrete FAISS-unavailable load yields a `SimpleIndex` state. -/
theorem faiss_unavailable_empty_search_witness :
    search ⟨[introFrag], [[1]], IndexKind.simple, false⟩ [0] 5 none none = [] ∧
      SearchState.indexKind ⟨[introFrag, acmeGoldFrag], [[1]], IndexKind.simple, false⟩ =
        IndexKind.simple :=
  ⟨faiss_unavailable_empty_search.1 [introFrag] [[1]] .simple [0] 5 none none,
   (faiss_unavailable_empty_search.2.2 diskC5
     ⟨[introFrag, acmeGoldFrag], [[1]], .simple, false⟩ (by decide)).1⟩

theorem build_c4_embedFail :
    build_index true true "2025-01-01 00:00:00" embedFail [c4Doc] =
      (⟨some [c4Frag], some [List.replicate 1536 0], some [List.replicate 1536 0],
        some ⟨1, 1536, "2025-01-01 00:00:00"⟩⟩,
       .ok ⟨[c4Frag], [List.replicate 1536 0], .faiss, true⟩) := by
  have hchunks : buildChunks [c4Doc] = [c4Frag] := by
    simp only [buildChunks, List.flatMap_cons, List.flatMap_nil, List.append_nil]
    decide
  have hvecs : buildVecs embedFail [c4Doc] = [List.replicate 1536 0] := by
    rw [buildVecs, hchunks]
    rfl
  have hlen : allSameLength [List.replicate 1536 0] = true := by
    simp only [allSameLength, List.all_cons, List.all_nil, List.headD_cons,
      List.length_replicate, beq_self_eq_true, Bool.and_true]
  unfold build_index
  rw [hvecs, hchunks, hlen]
  rw [if_neg (by decide)]
  rw [if_neg (by decide)]
  rw [if_pos rfl]
  simp only [List.headD_cons, List.length_replicate]
  rfl

theorem sqDist_replicate_zero :
    ∀ n : Nat, sqDist (List.replicate n (0 : ℚ)) (List.replicate n 0) = 0
  | 0 => by simp [sqDist]
  | n + 1 => by
    have ih := sqDist_replicate_zero n
    simp only [sqDist, List.replicate_succ, List.zipWith_cons_cons,
      List.sum_cons] at ih ⊢
    rw [ih]
    norm_num

theorem search_stC3_zero :
    search stC3 (List.replicate 1536 0) 5 none none = [⟨introFrag, 1 / 10⟩] := by
  have hd : sqDist (List.replicate 1536 0) (3 :: List.replicate 1535 0) = 9 := by
    rw [show (1536 : Nat) = 1535 + 1 from rfl, List.replicate_succ]
    have hz := sqDist_replicate_zero 1535
    simp only [sqDist, List.zipWith_cons_cons, List.sum_cons] at hz ⊢
    rw [hz]
    norm_num
  have hq : (List.replicate 1536 (0 : ℚ)).length = embDim stC3 := by
    simp only [List.length_replicate, embDim, stC3, List.headD_cons,
      List.length_cons]
  have hA : ∀ q, resultsA stC3 q none none = [] := fun q => rfl
  have hB : ∀ q, resultsB stC3 q =
      [⟨introFrag, score (sqDist q (3 :: List.replicate 1535 0))⟩] :=
    fun q => rfl
  rw [search_eq_of_len _ 5 none none (by decide) hq, hA, hB, hd]
  norm_num [sortDesc, sortBy, insertSorted, score]

/-- Counterexample to claim C3: with the vectorizer erroring on the
query, `search` does not fail with an `EmbeddingUnavailable` error —
`create_embedding` swallows every collaborator failure into the
1536-dimensional zero vector, and the search returns an ordinary,
non-empty ranked result list; a build whose every embedding call errors
still completes successfully instead of aborting. -/
theorem embedding_failure_counterexample :
    create_embedding (.error ()) = List.replicate 1536 0 ∧
    searchWithVectorizer stC3 (.error ()) 5 none none = [⟨introFrag, 1 / 10⟩] ∧
    buildOk (build_index true true "2025-01-01 00:00:00" embedFail [c4Doc]).2 = true := by
  refine ⟨rfl, search_stC3_zero, ?_⟩
  rw [build_c4_embedFail]
  rfl

/-- Claim C3 as amended: on collaborator failure `create_embedding`
returns the 1536-dimensional zero vector instead of raising; `search`
then proceeds with that vector and returns an ordinary ranked result
list (never an error), and `build_index` likewise substitutes zero
vectors for failed embeddings and completes rather than aborting. -/
theorem embedding_failure_amended :
    (∀ e : Unit, create_embedding (.error e) = List.replicate 1536 0) ∧
    (∀ (st : SearchState) (k : Nat) (fh ft : Option String) (e : Unit),
      searchWithVectorizer st (.error e) k fh ft =
        search st (List.replicate 1536 0) k fh ft) ∧
    (build_index true true "2025-01-01 00:00:00" embedFail [c4Doc]).2 =
      .ok ⟨[c4Frag], [List.replicate 1536 0], .faiss, true⟩ := by
  refine ⟨fun e => rfl, fun st k fh ft e => rfl, ?_⟩
  rw [build_c4_embedFail]

/-- Claim C4 (code bug): `import time` appears only under the
`__main__` guard of embedding.py, so a `build_index` call from any
module that imports it — the deployed path, `init_knowledge_base.py` —
raises `NameError` at the metadata step, after having already written
three of the four artifacts; a subsequent `load()` in a fresh process
then returns `False` instead of reproducing the state.  With the name
in scope (script execution) the round trip is exact: `load` reproduces
the persisted fragments and vectors and hence identical query results. -/
theorem build_load_roundtrip :
    build_index false true "2025-01-01 00:00:00" (embedConst [1, 2]) [c4Doc] =
      (⟨some [c4Frag], some [[1, 2]], some [[1, 2]], none⟩, .error .nameErrorTime) ∧
    load_index true
      (build_index false true "2025-01-01 00:00:00" (embedConst [1, 2]) [c4Doc]).1 =
        none ∧
    (build_index true true "2025-01-01 00:00:00" (embedConst [1, 2]) [c4Doc]).2 =
      .ok ⟨[c4Frag], [[1, 2]], .faiss, true⟩ ∧
    load_index true
      (build_index true true "2025-01-01 00:00:00" (embedConst [1, 2]) [c4Doc]).1 =
        some ⟨[c4Frag], [[1, 2]], .faiss, true⟩ := by
  decide

/-- Counterexample to claim C5: a structurally inconsistent disk state
— two fragments, a single vector row, all four artifacts present —
loads successfully (returns `True` with the mismatched state); no
`CorruptIndex` failure exists anywhere in the load path. -/
theorem load_corrupt_counterexample :
    load_index true diskC5 =
      some ⟨[introFrag, acmeGoldFrag], [[1]], .faiss, true⟩ ∧
    (⟨[introFrag, acmeGoldFrag], [[1]], IndexKind.faiss, true⟩ :
      SearchState).docs.length ≠
      (⟨[introFrag, acmeGoldFrag], [[1]], IndexKind.faiss, true⟩ :
        SearchState).embs.length := by
  decide

/-- Claim C5 as amended: `load()` returns `False` (not an error) when
any of the four artifacts is absent — the fragment list and FAISS files
through the up-front existence check, the vector and metadata files
through the caught read exception — but it performs no structural
consistency check: with a vector count differing from the fragment
count it still returns `True` and proceeds. -/
theorem load_result_discipline :
    (∀ (faiss : Bool) (d : DiskState), d.indexFile = none →
      load_index faiss d = none) ∧
    (∀ (faiss : Bool) (d : DiskState), d.faissFile = none →
      load_index faiss d = none) ∧
    (∀ (faiss : Bool) (d : DiskState), d.embeddingFile = none →
      load_index faiss d = none) ∧
    (∀ (faiss : Bool) (d : DiskState), d.metadataFile = none →
      load_index faiss d = none) ∧
    load_index true diskC5 =
      some ⟨[introFrag, acmeGoldFrag], [[1]], .faiss, true⟩ := by
  refine ⟨?_, ?_, ?_, ?_, by decide⟩
  · intro faiss d h
    unfold load_index
    rw [h]
    simp
  · intro faiss d h
    unfold load_index
    rw [h]
    simp
  · intro faiss d h
    unfold load_index
    rw [h]
    split
    · cases d.indexFile <;> cases d.metadataFile <;> rfl
    · rfl
  · intro faiss d h
    unfold load_index
    rw [h]
    split
    · cases d.indexFile <;> cases d.embeddingFile <;> rfl
    · rfl

/-- Witness for the amended C5: loading an empty disk returns `False`,
obtained through the claim theorem. -/
theorem load_result_discipline_witness : load_index true emptyDisk = none :=
  load_result_discipline.1 true emptyDisk rfl

/-- Claim C6 (code bug): there is no named `DimensionMismatch`
validation — ragged embedding vectors surface as a generic conversion
failure, raised before any artifact is written — and a failing build is
not atomic: a build failing at the metadata step (the `time` name being
absent on the deployed, imported path) has already written three of the
four artifacts. -/
theorem build_validation_atomicity :
    build_index true true "2025-01-01 00:00:00" embedRag [ragDoc] =
      (emptyDisk, .error .raggedVectors) ∧
    build_index false true "2025-01-01 00:00:00" (embedConst [7]) [c6Doc] =
      (⟨some [c6Frag], some [[7]], some [[7]], none⟩, .error .nameErrorTime) := by
  decide

theorem rowChunks_length (d : Document) (tIdx : Nat) (headers : List String)
    (rIdx : Nat) (row : List String) :
    (rowChunks d tIdx headers rIdx row).length =
      if 2 ≤ row.length then min row.length headers.length - 1 else 0 := by
  unfold rowChunks
  split <;> simp

theorem rowChunks_enumFrom_length (d : Document) (ti : Nat)
    (headers : List String) :
    ∀ (m : Nat) (rows : List (List String)),
      ((rows.enumFrom m).flatMap
        (fun rp => rowChunks d ti headers rp.1 rp.2)).length =
      (rows.map (fun row =>
        if 2 ≤ row.length then min row.length headers.length - 1 else 0)).sum
  | _, [] => by simp
  | m, r :: rows => by
    simp [List.enumFrom_cons, rowChunks_length,
      rowChunks_enumFrom_length d ti headers (m + 1) rows]

theorem tableChunks_enumFrom_length (d : Document) :
    ∀ (n : Nat) (ts : List Table),
      ((ts.enumFrom n).flatMap (fun tp =>
        (tp.2.data.enumFrom 0).flatMap
          (fun rp => rowChunks d tp.1 tp.2.headers rp.1 rp.2))).length =
      (ts.map (fun t =>
        (t.data.map (fun row =>
          if 2 ≤ row.length then min row.length t.headers.length - 1 else 0)).sum)).sum
  | _, [] => by simp
  | n, t :: ts => by
    simp only [List.enumFrom_cons, List.flatMap_cons, List.length_append,
      List.map_cons, List.sum_cons,
      rowChunks_enumFrom_length d n t.headers 0 t.data,
      tableChunks_enumFrom_length d (n + 1) ts]

theorem tableChunks_length (d : Document) :
    (tableChunks d).length = cellCount d := by
  unfold tableChunks cellCount
  simp only [List.enum_eq_enumFrom]
  exact tableChunks_enumFrom_length d 0 d.tables

theorem introChunks_length (d : Document) :
    (introChunks d).length = introCount d := by
  unfold introChunks introCount
  split <;> rfl

theorem contactChunks_length (d : Document) :
    (contactChunks d).length = contactCount d := by
  unfold contactChunks contactCount contactTruthy
  cases d.contact_info with
  | none => rfl
  | some c =>
    cases h : (c.phonesKey.isSome || c.extraKeys != 0) <;> simp [h]

/-- Counterexample to claim C8: a document whose `contact_info`
dictionary is `{'phones': []}` — truthy although it holds no non-empty
phone list — yields one contact fragment, while the count the claim
specifies (a contact fragment present iff the phone lists are
non-empty) is zero. -/
theorem segmenter_contact_counterexample :
    (chunk_document c8Doc).length = 1 ∧
    introCount c8Doc = 0 ∧ cellCount c8Doc = 0 ∧
    claimedContactCount c8Doc = 0 ∧
    chunk_document c8Doc = [⟨"Informations de contact:\n",
      ⟨"svc", "kb.json", "contact", none, none, none, none, none⟩⟩] := by
  decide

/-- Claim C8 as amended: `chunk_document` is total and order-preserving
and its fragment count is introduction (0/1, present iff title plus
paragraphs is non-empty after trimming) + one per valid table cell
(for each row with ≥ 2 cells, one per column index in
`[1, min(len(row), len(headers)))`) + contact (0/1, present iff the
`contact_info` mapping is non-empty — even when every phone list is
empty or missing). -/
theorem segmenter_fragment_count (d : Document) :
    (chunk_document d).length = introCount d + cellCount d + contactCount d := by
  unfold chunk_document
  rw [List.length_append, List.length_append, introChunks_length,
    tableChunks_length, contactChunks_length]

/-- Counterexample to claim C7: the specific-pool membership test is
claimed case-insensitive, but the code compares stripped strings
without case folding — the stored facets `Acme`/`Gold` do not match the
lower-cased filters `acme`/`gold`, while the same-cased filters do. -/
theorem fuzzy_case_sensitivity_counterexample :
    facetMatch (some "Gold") (some "gold") = false ∧
    facetMatch (some "Gold") (some "Gold") = true ∧
    andPool stC1 (some "acme") (some "gold") = [] ∧
    andPool stC1 (some "Acme") (some "Gold") = [(1, acmeGoldFrag)] := by
  decide

/-- Counterexample to claim C1: a specific-pool match exists
(`andPool` has one entry) and `top_k = 1`, yet the returned sequence is
the single general-pool fragment — the results are merged purely by
descending score, so a nearer general fragment displaces every
specific-pool fragment and no specific fragment appears at all. -/
theorem dual_pool_priority_counterexample :
    (andPool stC1 (some "Acme") (some "Gold")).length = 1 ∧
    search stC1 [0] 1 (some "Acme") (some "Gold") = [⟨introFrag, 1⟩] ∧
    generalMatch introFrag.metadata = true ∧
    andMatch introFrag.metadata (some "Acme") (some "Gold") = false := by
  decide

/-- Claim C1 as amended: results are sorted by non-increasing score
(the merge sorts purely by score, stably, so ties keep specific-pool
candidates first); when additionally the state is in bounds, the query
has the stored dimension (so no caught exception empties the result),
some specific-pool candidate scores strictly higher than every
general-pool candidate and `top_k ≥ 1`, the first returned result is a
specific-pool candidate — but a higher-scoring general-pool fragment
may otherwise precede or displace all specific-pool fragments. -/
theorem dual_pool_priority :
    (∀ (st : SearchState) (q : List ℚ) (k : Nat) (fh ft : Option String),
      (search st q k fh ft).Pairwise (fun a b => b.score ≤ a.score)) ∧
    (∀ (st : SearchState) (q : List ℚ) (k : Nat) (fh ft : Option String),
      1 ≤ k → st.docs.length ≤ st.embs.length → q.length = embDim st →
      (∃ a ∈ resultsA st q fh ft, ∀ b ∈ resultsB st q, b.score < a.score) →
      ∃ r rest, search st q k fh ft = r :: rest ∧ r ∈ resultsA st q fh ft) := by
  constructor
  · intro st q k fh ft
    simp only [search]
    split
    · simp
    · have hpw := pairwise_sortBy scoreGE scoreGE_total scoreGE_trans
        (resultsA st q fh ft ++ resultsB st q)

      have hsub := List.take_sublist k
        (sortDesc (resultsA st q fh ft ++ resultsB st q))
      have hpw2 := List.Pairwise.sublist hsub (by simpa [sortDesc] using hpw)
      refine hpw2.imp ?_
      intro a b hab
      simpa [scoreGE, decide_eq_true_eq] using hab
  · intro st q k fh ft hk hlen hq hd
    obtain ⟨a, haA, hab⟩ := hd
    rw [search_eq_of_len q k fh ft hlen hq]
    have hmemL : a ∈ sortDesc (resultsA st q fh ft ++ resultsB st q) := by
      unfold sortDesc
      exact (mem_sortBy _ _ _).mpr (List.mem_append_left _ haA)
    obtain ⟨h0, t, hcons⟩ :
        ∃ h0 t, sortDesc (resultsA st q fh ft ++ resultsB st q) = h0 :: t := by
      cases hLc : sortDesc (resultsA st q fh ft ++ resultsB st q) with
      | nil => rw [hLc] at hmemL; cases hmemL
      | cons x xs => exact ⟨x, xs, rfl⟩
    have hpw : (sortDesc (resultsA st q fh ft ++ resultsB st q)).Pairwise
        (fun x y => scoreGE x y = true) := by
      unfold sortDesc
      exact pairwise_sortBy scoreGE scoreGE_total scoreGE_trans _
    have hheadA : h0 ∈ resultsA st q fh ft := by
      have hh : h0 ∈ resultsA st q fh ft ++ resultsB st q := by
        have h1 : h0 ∈ sortDesc (resultsA st q fh ft ++ resultsB st q) := by
          rw [hcons]
          exact List.mem_cons_self _ _
        unfold sortDesc at h1
        exact (mem_sortBy _ _ _).mp h1
      rcases List.mem_append.mp hh with hA | hB
      · exact hA
      · exfalso
        have hba : h0.score < a.score := hab h0 hB
        rcases List.mem_cons.mp (hcons ▸ hmemL) with heq | hat
        · rw [heq] at hba
          exact lt_irrefl _ hba
        · have h1 : scoreGE h0 a = true :=
            (List.pairwise_cons.mp (hcons ▸ hpw)).1 a hat
          have h2 : a.score ≤ h0.score := by
            simpa [scoreGE, decide_eq_true_eq] using h1
          linarith
    obtain ⟨k', rfl⟩ : ∃ k', k = k' + 1 := ⟨k - 1, by omega⟩
    exact ⟨h0, t.take k', by rw [hcons, List.take_succ_cons], hheadA⟩

/-- Witness for the amended C1: in a state where the Acme/Gold fragment
sits at distance 0 and the general fragment at distance 100, the first
(and only) returned result, obtained through the claim theorem, is the
specific-pool candidate. -/
theorem dual_pool_priority_witness :
    (⟨acmeGoldFrag, (1 : ℚ)⟩ : SearchResult) ∈
      resultsA stC1w [0] (some "Acme") (some "Gold") := by
  obtain ⟨r, rest, h1, h2⟩ := dual_pool_priority.2 stC1w [0] 1
    (some "Acme") (some "Gold") (by decide) (by decide) (by decide) (by decide)
  have hs : search stC1w [0] 1 (some "Acme") (some "Gold") =
      [⟨acmeGoldFrag, 1⟩] := by decide
  rw [hs] at h1
  injection h1 with hr hrest
  rw [hr]
  exact h2

/-- Claim C2 (confirmed): whenever the exact (AND) specific pool is
empty, the pool actually searched is recomputed with OR semantics — a
position qualifies iff it fuzzy-matches either facet; in the concrete
fallback scenario (filters Acme/Gold, no fragment with both facets, one
fragment with facets Acme/Silver) the widened search returns that
fragment. -/
theorem fallback_widening :
    (∀ (st : SearchState) (fh ft : Option String) (p : Nat × Fragment),
      (andPool st fh ft).isEmpty = true →
      (p ∈ specificPool st fh ft ↔
        p ∈ st.docs.enum ∧ orMatch p.2.metadata fh ft = true)) ∧
    (andPool stC2 (some "Acme") (some "Gold")).isEmpty = true ∧
    andMatch acmeSilverFrag.metadata (some "Acme") (some "Gold") = false ∧
    orMatch acmeSilverFrag.metadata (some "Acme") (some "Gold") = true ∧
    search stC2 [0] 5 (some "Acme") (some "Gold") =
      [⟨acmeSilverFrag, 1⟩, ⟨introFrag, 1 / 26⟩] := by
  refine ⟨?_, by decide, by decide, by decide, by decide⟩
  intro st fh ft p h
  unfold specificPool
  rw [if_pos h]
  unfold orPool
  exact List.mem_filter

/-- Witness for C2: through the claim theorem, the Acme/Silver fragment
is a member of the widened specific pool of the concrete scenario. -/
theorem fallback_widening_witness :
    (0, acmeSilverFrag) ∈ specificPool stC2 (some "Acme") (some "Gold") :=
  (fallback_widening.1 stC2 (some "Acme") (some "Gold") (0, acmeSilverFrag)
    (by decide)).mpr ⟨by decide, by decide⟩

/-- Claim C7 as amended: the membership test is case-SENSITIVE
substring containment in either direction after stripping leading and
trailing whitespace (symmetric in its two strings), and a missing
(`None`) filter or facet — or an empty string, which Python treats as
falsy — never contributes a match. -/
theorem fuzzy_match_characterization :
    (∀ f h, fuzzy f h = fuzzy h f) ∧
    (∀ facet, facetMatch facet none = false) ∧
    (∀ filt, facetMatch none filt = false) ∧
    facetMatch (some "  Acme  ") (some "Acme") = true ∧
    facetMatch (some "Acme corp") (some "Acme") = true ∧
    facetMatch (some "") (some "Acme") = false := by
  refine ⟨?_, ?_, ?_, by decide, by decide, by decide⟩
  · intro f h
    unfold fuzzy
    exact Bool.or_comm _ _
  · intro facet
    cases facet <;> rfl
  · intro filt
    cases filt <;> rfl

end Embedding

end Reducibility
